import Mathlib

/-!
Verification of the aggregation/classification pipeline of the
sf-state-schedule-scraper repository against its design specification.

The repository has two variants of the same pipeline:
* the desktop variant (`sf_state_scraper_interactive.py`): `parse_rows`,
  `classify_courses`, `process_instructor_names` / `split_name`,
  `create_summary_table`;
* the web-UI variant (`app.py`): `scrape_sf_state_schedule` with its inline
  instructor-name splitting, leading-digit ug/grad partition and workload
  summary, plus `extract_enrollment_from_detail_page`.

Python string operations are embedded over `List Char` (Lean 4.14 strings are
lists of characters), faithful to the source: `str.strip`, `str.split()`
(whitespace runs), `str.split(",", 1)`, `str.replace`, substring containment,
the regex searches used by the code, `sorted`, `set`, and `"; ".join`.
-/

/-- Value of a decimal digit character, as Python int() of a digit. -/
def digitVal (c : Char) : Nat := c.toNat - '0'.toNat

/-- ASCII word character, the regex class backslash-w used by the
word-boundary assertions in `is_grad`'s pattern. -/
def isWordChar (c : Char) : Bool := c.isAlpha || c.isDigit || c = '_'

/-- Python `str.strip()`: drop whitespace from both ends (char-list level). -/
def stripChars (l : List Char) : List Char :=
  (((l.dropWhile Char.isWhitespace).reverse.dropWhile Char.isWhitespace).reverse)

/-- Python `str.strip()` on strings. -/
def pyStrip (s : String) : String := String.mk (stripChars s.data)

/-- Helper for `splitWS`: accumulate the current token (reversed in `acc`). -/
def splitWSAux : List Char → List Char → List (List Char)
  | acc, [] => if acc.isEmpty then [] else [acc.reverse]
  | acc, c :: rest =>
    if c.isWhitespace then
      if acc.isEmpty then splitWSAux [] rest
      else acc.reverse :: splitWSAux [] rest
    else splitWSAux (c :: acc) rest

/-- Python `str.split()` with no argument: split on runs of whitespace,
discarding empty tokens. -/
def splitWS (s : String) : List String :=
  (splitWSAux [] s.data).map String.mk

/-- Python `sep.join(parts)`. -/
def joinSep (sep : String) : List String → String
  | [] => ""
  | [x] => x
  | x :: y :: rest => x ++ sep ++ joinSep sep (y :: rest)

/-- Break a char list at the first comma: Python `s.split(",", 1)`, returning
the part before the first comma and, when a comma exists, the part after it. -/
def breakComma : List Char → List Char × Option (List Char)
  | [] => ([], none)
  | c :: rest =>
    if c = ',' then ([], some rest)
    else
      let p := breakComma rest
      (c :: p.1, p.2)

/-- Python `pat in s` substring containment (char-list level). -/
def containsSub (pat : List Char) : List Char → Bool
  | [] => decide (pat = [])
  | c :: rest => pat.isPrefixOf (c :: rest) || containsSub pat rest

/-- Fuel-based scanner for `deleteSub`; the fuel is an upper bound on the
list length (structural recursion so that the kernel can evaluate it). -/
def deleteSubAux (p : Char) (ps : List Char) : Nat → List Char → List Char
  | _, [] => []
  | 0, l => l
  | Nat.succ fuel, c :: rest =>
    if (p :: ps).isPrefixOf (c :: rest) then
      deleteSubAux p ps fuel (rest.drop ps.length)
    else c :: deleteSubAux p ps fuel rest

/-- Python `s.replace(pat, "")` for a nonempty pattern `p :: ps`: delete every
occurrence of the pattern, scanning left to right. -/
def deleteSub (p : Char) (ps : List Char) (l : List Char) : List Char :=
  deleteSubAux p ps l.length l

/-- Lowercase every character: the effect of the `re.I` flag on the ASCII
keywords searched by `is_supervision` and on the web variant's
`str.contains(..., case=False)`. -/
def lowerChars (l : List Char) : List Char := l.map Char.toLower

/-- Case-insensitive substring test on strings. -/
def containsCI (hay pat : String) : Bool :=
  containsSub (lowerChars pat.data) (lowerChars hay.data)

/-- Case-sensitive substring test on strings, Python `pat in s`. -/
def containsStr (hay pat : String) : Bool := containsSub pat.data hay.data

/-- Scanner for the regex search of a word-bounded 3-digit group
(the pattern used by `is_grad` in `classify_courses`): at each position, a
match requires the previous character to be a non-word character (or the
string start), three digit characters, and the following character to be a
non-word character (or the string end).  `re.search` returns the leftmost
match; the scanner advances one character at a time, tracking whether the
previous character was a word character. -/
def scanTriple : Bool → List Char → Option Nat
  | _, [] => none
  | prevWord, c :: rest =>
    (if !prevWord && c.isDigit then
      match rest with
      | d2 :: d3 :: rest2 =>
        if d2.isDigit && d3.isDigit &&
            (match rest2 with
             | [] => true
             | c3 :: _ => !isWordChar c3) then
          some (digitVal c * 100 + digitVal d2 * 10 + digitVal d3)
        else none
      | _ => none
    else none).orElse
    (fun _ => scanTriple (isWordChar c) rest)

/-- The first standalone 3-digit numeric token of a string, per the regex
search in `is_grad` (`sf_state_scraper_interactive.py`, line 415). -/
def firstStandaloneTriple (s : String) : Option Nat := scanTriple false s.data

/-- `is_grad` (desktop variant, `classify_courses`): grad iff the first
standalone 3-digit token of `course_code` is at least 700; False when no
such token exists. -/
def is_grad (course_code : String) : Bool :=
  match firstStandaloneTriple course_code with
  | some n => decide (700 ≤ n)
  | none => false

/-- The six case-insensitive supervision keywords of `is_supervision`. -/
def supervisionKeywords : List String :=
  ["Independent", "Internship", "Supervision", "Thesis", "Field", "Research"]

/-- `is_supervision` (desktop variant, `classify_courses`): the title matches
any of the keywords, case-insensitively, as a substring. -/
def is_supervision (title : String) : Bool :=
  supervisionKeywords.any (fun k => containsCI title k)

/-- One parsed course row of the desktop variant (the dict built by
`parse_rows`; `course_link` is kept as an optional string, `enrolled` is the
non-negative enrollment count filled in from the detail pages). -/
structure RawRow where
  course_type : String
  title : String
  units : String
  course_code : String
  instructor : String
  enrolled : Nat
  note : String
  course_link : Option String
  class_number : String
deriving Repr, DecidableEq

/-- A `RawRow` after `classify_courses`: the added `level` ("ug"/"grad") and
`supervision` columns. -/
structure ClassifiedRow extends RawRow where
  level : String
  supervision : Bool
deriving Repr, DecidableEq

/-- `classify_courses` (desktop variant) on one row: level is "grad" when
`is_grad` holds of `course_code`, else "ug"; supervision from the title. -/
def classify_courses (r : RawRow) : ClassifiedRow :=
  { r with
    level := if is_grad r.course_code then "grad" else "ug"
    supervision := is_supervision r.title }

/-- `split_name` (desktop variant, `process_instructor_names`): empty input
gives ("", ""); otherwise split at the first comma when one exists and strip
both parts; with no comma the whole stripped string is the last name and the
first name is empty. -/
def split_name (instructor : String) : String × String :=
  if instructor = "" then ("", "")
  else
    match breakComma instructor.data with
    | (before, some after) => (String.mk (stripChars before), String.mk (stripChars after))
    | (_, none) => (pyStrip instructor, "")

/-- Instructor-cell handling of `parse_rows` (desktop variant, lines 362-375):
when the cell contains "Instructors:", delete that marker, strip, and split the
remainder on whitespace; with at least two tokens the stored instructor is
"second, first" (intended "LastName, FirstName" for a "First Last" cell); with
exactly one token that token is stored verbatim; otherwise the empty string. -/
def extractInstructor (instructor_col : String) : String :=
  if containsStr instructor_col "Instructors:" then
    let instructor_text := pyStrip (String.mk (deleteSub 'I' "nstructors:".data instructor_col.data))
    match splitWS instructor_text with
    | p0 :: p1 :: _ => p1 ++ ", " ++ p0
    | [p0] => p0
    | [] => ""
  else ""

/-- The row-keeping test of `parse_rows` (desktop variant, lines 380-385): a
parsed row is kept iff its instructor string is nonempty and not
whitespace-only.  There is no "TBA"/"Staff" sentinel check in this variant. -/
def parseKeeps (instructor : String) : Bool :=
  !(instructor = "") && !(pyStrip instructor = "")

/-- Note construction of `parse_rows` (desktop variant, lines 388-394). -/
def noteOf (course_type : String) : String :=
  joinSep "; "
    ((if containsStr course_type "Cross-Listed" then ["cross-listed"] else []) ++
     (if containsStr course_type "Paired" then ["paired"] else []))

/-- The bucket function of `create_summary_table` (desktop variant). -/
def bucket (r : ClassifiedRow) : String :=
  if r.level = "ug" && !r.supervision then "ug_lecture"
  else if r.level = "ug" && r.supervision then "ug_superv"
  else if r.level = "grad" && !r.supervision then "grad_lecture"
  else "grad_superv"

/-- The pivot-table grouping key of `create_summary_table`: the
(Last Name, First Name) pair produced by `split_name` on the row's
instructor string (added by `process_instructor_names`). -/
def nameKey (r : ClassifiedRow) : String × String := split_name r.instructor

/-- The rows of one instructor group. -/
def groupRows (rows : List ClassifiedRow) (key : String × String) : List ClassifiedRow :=
  rows.filter (fun r => nameKey r = key)

/-- Pivot cell: class count of one instructor group in one bucket
(`aggfunc="sum"` over the constant-1 `class_count` column, `fill_value=0`). -/
def class_count (rows : List ClassifiedRow) (key : String × String) (b : String) : Nat :=
  ((groupRows rows key).filter (fun r => bucket r = b)).length

/-- Pivot cell: summed enrollment of one instructor group in one bucket
(`aggfunc="sum"` over the `student_count` column, which copies `enrolled`). -/
def student_count (rows : List ClassifiedRow) (key : String × String) (b : String) : Nat :=
  (((groupRows rows key).filter (fun r => bucket r = b)).map (fun r => r.enrolled)).sum

/-- The distinct instructor keys of the pivot table.  (pandas emits the index
in sorted order; the claims below only use membership, so `List.dedup`
suffices.) -/
def summaryKeys (rows : List ClassifiedRow) : List (String × String) :=
  (rows.map nameKey).dedup

/-- Code-point lexicographic strict order on char lists: Python string
comparison, as used by `sorted` in the note collector. -/
def lexChars : List Char → List Char → Bool
  | [], [] => false
  | [], _ :: _ => true
  | _ :: _, [] => false
  | a :: as, b :: bs =>
    if a.toNat < b.toNat then true
    else if a.toNat = b.toNat then lexChars as bs
    else false

/-- Python string less-than. -/
def strLtB (a b : String) : Bool := lexChars a.data b.data

/-- Insert into a sorted list of strings (ascending by `strLtB`). -/
def insertStr (x : String) : List String → List String
  | [] => [x]
  | y :: ys => if strLtB x y then x :: y :: ys else y :: insertStr x ys

/-- Ascending sort of strings: Python `sorted` on a set of strings. -/
def sortStrings : List String → List String
  | [] => []
  | x :: xs => insertStr x (sortStrings xs)

/-- The note collector of `create_summary_table` (desktop variant, lines
499-504): keep the non-empty notes of one instructor group, deduplicate
(Python `set`), sort, and join with "; ". -/
def collect_notes (notes : List String) : String :=
  joinSep "; " (sortStrings ((notes.filter (fun n => !(n = ""))).dedup))

/-- The note column value of one instructor group. -/
def noteEntry (rows : List ClassifiedRow) (key : String × String) : String :=
  collect_notes ((groupRows rows key).map (fun r => r.note))

/-- The four bucket labels. -/
def bucketNames : List String :=
  ["ug_lecture", "ug_superv", "grad_lecture", "grad_superv"]

/-- The class-count output label of each bucket (the `column_mapping` rename
of `create_summary_table`, typos preserved). -/
def classCountLabel : String → String
  | "ug_lecture" => "Total # of UG classes"
  | "ug_superv" => "Total # of UG supervion classes"
  | "grad_lecture" => "Total # of Grad classes"
  | _ => "Total # of Grad supervion classes"

/-- The student-count output label of each bucket (`column_mapping`). -/
def studentCountLabel : String → String
  | "ug_lecture" => "Total # of UG students from Column D"
  | "ug_superv" => "Total # of UG students from Column F"
  | "grad_lecture" => "Total # of Grad students from Colum H"
  | _ => "Total # of Grad student from Column J"

/-- The fixed output column order (`column_order` of `create_summary_table`). -/
def column_order : List String :=
  ["Last Name", "First Name",
   "Total # of UG classes",
   "Total # of UG students from Column D",
   "Total # of UG supervion classes",
   "Total # of UG students from Column F",
   "Total # of Grad classes",
   "Total # of Grad students from Colum H",
   "Total # of Grad supervion classes",
   "Total # of Grad student from Column J",
   "note"]

/-- The columns present in the merged frame before reordering: the index
columns, then one class-count and one student-count column per bucket that
occurs somewhere in the input (`pivot_table` only creates columns for
observed bucket values), then the note column. -/
def availableColumns (rows : List ClassifiedRow) : List String :=
  ["Last Name", "First Name"] ++
  ((bucketNames.filter (fun b => rows.any (fun r => bucket r = b))).map
     (fun b => [classCountLabel b, studentCountLabel b])).flatten ++
  ["note"]

/-- The final output columns of `create_summary_table`: the fixed order
restricted to the columns that exist (line 531, "Only include columns that
exist in the dataframe"). -/
def finalColumns (rows : List ClassifiedRow) : List String :=
  column_order.filter (fun c => (availableColumns rows).contains c)

/-- One parsed class row of the web-UI variant (the dict built in
`scrape_sf_state_schedule`, app.py lines 267-275).  `sectionCol` embeds the
"Section" cell (the word section is reserved in Lean). -/
structure WebRow where
  classNbr : String
  sectionCol : String
  component : String
  courseNumber : String
  instructor : String
  courseTitle : String
  enrollment : Nat
deriving Repr, DecidableEq

/-- Instructor extraction of the web-UI variant (app.py lines 252-261): the
first of the candidate cell texts (cells 7, 8, 9), stripped, that is neither
empty nor "TBA" nor "Staff"; when none qualifies the sentinel "TBA" is
stored. -/
def webSelectInstructor (candidates : List String) : String :=
  match (candidates.map pyStrip).find?
      (fun t => !(t = "" || t = "TBA" || t = "Staff")) with
  | some t => t
  | none => "TBA"

/-- Python `int(s[:1])` as applied by `.str[:1].astype(int)` to the Course
Number column (app.py lines 324-325): the value of the leading digit, or an
error (ValueError in the source) when the string is empty or its first
character is not a digit. -/
def leadDigitInt (s : String) : Except String Nat :=
  match s.data with
  | [] => Except.error "invalid literal for int() with base 10"
  | c :: _ =>
    if c.isDigit then Except.ok (digitVal c)
    else Except.error "invalid literal for int() with base 10"

/-- Pair every row with its leading course-number digit; the whole
computation errors (as the pandas `astype(int)` raises) when any row of the
group has a malformed course number. -/
def webLeadDigits : List WebRow → Except String (List (WebRow × Nat))
  | [] => Except.ok []
  | r :: rest =>
    match leadDigitInt r.courseNumber with
    | Except.error e => Except.error e
    | Except.ok d =>
      match webLeadDigits rest with
      | Except.error e => Except.error e
      | Except.ok l => Except.ok ((r, d) :: l)

/-- The supervision test of the web-UI variant (app.py lines 328-329):
`Component` contains IND, THE or SUP case-insensitively. -/
def webSupervision (component : String) : Bool :=
  containsCI component "IND" || containsCI component "THE" || containsCI component "SUP"

/-- Inline name splitting of the web-UI variant (app.py lines 315-321):
remove all commas, split on whitespace; with at least two tokens the first
token is the last name and the remaining tokens joined are the first name;
otherwise the original string is the last name and the first name is empty. -/
def splitNameWeb (instructor : String) : String × String :=
  match splitWS (String.mk (instructor.data.filter (fun c => !(c = ',')))) with
  | p0 :: p1 :: rest => (p0, joinSep " " (p1 :: rest))
  | _ => (instructor, "")

/-- One output record of the web-UI workload summary (app.py lines 331-342). -/
structure WorkloadRow where
  lastName : String
  firstName : String
  ugClasses : Nat
  ugStudents : Nat
  ugSupClasses : Nat
  ugSupStudents : Nat
  gradClasses : Nat
  gradStudents : Nat
  gradSupClasses : Nat
  gradSupStudents : Nat
deriving Repr, DecidableEq

/-- The web-UI workload record of one instructor, from that instructor's rows
(app.py lines 312-342): `ugClasses` counts all rows with leading digit at
most 6 (supervision included), `gradClasses` all rows with leading digit at
least 7; the supervision counts are the component-matching subsets of those
two sets; student numbers sum `Enrollment` over the same sets.  Errors when
any course number of the group is malformed, as the pandas conversion
raises. -/
def webWorkloadRow (instructor : String) (rows : List WebRow) : Except String WorkloadRow :=
  (webLeadDigits rows).map (fun l =>
    let ug := (l.filter (fun p => p.2 ≤ 6)).map Prod.fst
    let grad := (l.filter (fun p => 7 ≤ p.2)).map Prod.fst
    let ugSup := ug.filter (fun r => webSupervision r.component)
    let gradSup := grad.filter (fun r => webSupervision r.component)
    let nm := splitNameWeb instructor
    { lastName := nm.1
      firstName := nm.2
      ugClasses := ug.length
      ugStudents := (ug.map (fun r => r.enrollment)).sum
      ugSupClasses := ugSup.length
      ugSupStudents := (ugSup.map (fun r => r.enrollment)).sum
      gradClasses := grad.length
      gradStudents := (grad.map (fun r => r.enrollment)).sum
      gradSupClasses := gradSup.length
      gradSupStudents := (gradSup.map (fun r => r.enrollment)).sum })

/-- The instructors the web-UI workload loop emits a record for: the distinct
instructor values minus the "TBA" sentinel (app.py lines 308-310; pandas
`unique()` preserves first-occurrence order, the claims below only use
membership). -/
def webWorkloadInstructors (rows : List WebRow) : List String :=
  ((rows.map (fun r => r.instructor)).dedup).filter (fun i => !(i = "TBA"))

/-- The rows of one web-UI instructor (`df[df['Instructor'] == instructor]`). -/
def webInstructorRows (rows : List WebRow) (instructor : String) : List WebRow :=
  rows.filter (fun r => r.instructor = instructor)

/-- The 10 output columns of the web-UI workload frame: the dict literal of
app.py lines 331-342 has exactly these keys, in this order, for every
instructor; there is no note column in this variant. -/
def webColumns : List String :=
  ["Last Name", "First Name",
   "Total # of UG classes",
   "Total # of UG students from Column D",
   "Total # of UG supervion classes",
   "Total # of UG students from Column F",
   "Total # of Grad classes",
   "Total # of Grad students from Colum H",
   "Total # of Grad supervion classes",
   "Total # of Grad student from Column J"]

/-- Outcome of one detail-page visit in `extract_enrollment_from_detail_page`
(app.py lines 114-155), abstracting the browser interaction: whether the page
reached readiness within the bounded wait (`WebDriverWait(driver, 10)`), the
text found at each of the three enrollment selectors (none embeds
NoSuchElementException for that selector), and the texts of the fallback
`col-xs-5 col-md-6` divs scanned by the BeautifulSoup parse. -/
structure DetailPage where
  pageReady : Bool
  selectorTexts : List (Option String)
  fallbackDivTexts : List String
deriving Repr, DecidableEq

/-- Python `str.isdigit()` (ASCII): nonempty and all digits. -/
def isDigits (s : String) : Bool :=
  !(s.data.isEmpty) && s.data.all Char.isDigit

/-- Python `int(s)` of an all-digit string. -/
def intOfDigits (s : String) : Nat :=
  s.data.foldl (fun acc c => acc * 10 + digitVal c) 0

/-- `extract_enrollment_from_detail_page` (app.py lines 114-155): when the
bounded wait times out, the exception is caught by the enclosing handler and
0 is returned; otherwise the first present selector whose stripped text is
all digits yields its integer; otherwise the fallback scan returns the first
all-digit div text between 0 and 500; otherwise 0. -/
def extract_enrollment_from_detail_page (page : DetailPage) : Nat :=
  if !page.pageReady then 0
  else
    match (page.selectorTexts.filterMap id).find? (fun t => isDigits (pyStrip t)) with
    | some t => intOfDigits (pyStrip t)
    | none =>
      match page.fallbackDivTexts.find?
          (fun t => isDigits (pyStrip t) && intOfDigits (pyStrip t) ≤ 500) with
      | some t => intOfDigits (pyStrip t)
      | none => 0

/-- The per-row enrollment loop of the web-UI variant (app.py lines 289-297):
every row is visited in order and has its enrollment replaced by the
extraction result for its detail page; no outcome aborts the loop. -/
def fillEnrollments (rows : List WebRow) (pages : Nat → DetailPage) : List WebRow :=
  (rows.enum).map (fun p => { p.2 with enrollment := extract_enrollment_from_detail_page (pages p.1) })

theorem breakComma_of_no_comma (l : List Char) (h : ∀ c ∈ l, c ≠ ',') :
    breakComma l = (l, none) := by
  induction l with
  | nil => rfl
  | cons c rest ih =>
    have hc : c ≠ ',' := h c (List.mem_cons_self c rest)
    have hrest : ∀ x ∈ rest, x ≠ ',' := fun x hx => h x (List.mem_cons_of_mem c hx)
    simp [breakComma, hc, ih hrest]

theorem breakComma_append (l f : List Char) (h : ∀ c ∈ l, c ≠ ',') :
    breakComma (l ++ ',' :: f) = (l, some f) := by
  induction l with
  | nil => simp [breakComma]
  | cons c rest ih =>
    have hc : c ≠ ',' := h c (List.mem_cons_self c rest)
    have hrest : ∀ x ∈ rest, x ≠ ',' := fun x hx => h x (List.mem_cons_of_mem c hx)
    simp [breakComma, hc, ih hrest]

/-- Claim C3: `split_name` returns ("", "") on empty input and splits at the
first comma; but on comma-free input the desktop `split_name` does NOT split
on whitespace — the whole string becomes the last name ("If no comma, assume
it's all last name", line 441), so `split_name "Jane Smith"` is
("Jane Smith", ""), not ("Jane", "Smith") as the claim states. -/
theorem C3_counterexample : split_name "Jane Smith" ≠ ("Jane", "Smith") := by decide

/-- Claim C3 (amended): the desktop `split_name` returns ("", "") on empty
input; on input with a comma it splits at the first comma and strips both
parts; on comma-free input the whole stripped string becomes the last name
with empty first name.  The whitespace-splitting rule the claim describes is
the one of the web-UI variant's inline splitter, which removes every comma
and then splits on whitespace: with two or more tokens the first token is the
last name and the remaining tokens joined are the first name, and with at
most one token the original string is the last name with empty first name. -/
theorem C3_split_name_amended :
    split_name "" = ("", "") ∧
    (∀ l f : String, (∀ c ∈ l.data, c ≠ ',') →
      split_name (l ++ "," ++ f) = (pyStrip l, pyStrip f)) ∧
    (∀ s : String, s ≠ "" → (∀ c ∈ s.data, c ≠ ',') →
      split_name s = (pyStrip s, "")) ∧
    split_name "Smith, Jane" = ("Smith", "Jane") ∧
    split_name "Jane Smith" = ("Jane Smith", "") ∧
    (∀ s p0 p1 : String, ∀ rest : List String,
      splitWS (String.mk (s.data.filter (fun c => !(c = ',')))) = p0 :: p1 :: rest →
      splitNameWeb s = (p0, joinSep " " (p1 :: rest))) ∧
    (∀ s p0 : String,
      splitWS (String.mk (s.data.filter (fun c => !(c = ',')))) = [p0] →
      splitNameWeb s = (s, "")) ∧
    splitNameWeb "Jane Smith" = ("Jane", "Smith") ∧
    splitNameWeb "Smith, Jane" = ("Smith", "Jane") := by
  refine ⟨by decide, ?_, ?_, by decide, by decide, ?_, ?_, by decide, by decide⟩
  · intro l f h
    have hdata : (l ++ "," ++ f).data = l.data ++ ',' :: f.data := by
      simp [String.data_append]
    have hne : (l ++ "," ++ f) ≠ "" := by
      intro he
      have : (l ++ "," ++ f).data = [] := by rw [he]
      rw [hdata] at this
      simp at this
    unfold split_name
    rw [if_neg hne, hdata, breakComma_append l.data f.data h]
    rfl
  · intro s hne h
    unfold split_name
    rw [if_neg hne, breakComma_of_no_comma s.data h]
  · intro s p0 p1 rest h
    unfold splitNameWeb
    rw [h]
  · intro s p0 h
    unfold splitNameWeb
    rw [h]

/-- Witness for C3's amended theorem at concrete inputs: the comma case on
"Van Dyke" and "  Jane ", the no-comma case on "Jane Smith", and the web
splitter's two-token case on "Jane Smith". -/
theorem C3_split_name_amended_witness :
    ((∀ c ∈ ("Van Dyke" : String).data, c ≠ ',') ∧
      split_name ("Van Dyke" ++ "," ++ "  Jane ") = (pyStrip "Van Dyke", pyStrip "  Jane ")) ∧
    (("Jane Smith" : String) ≠ "" ∧
      split_name "Jane Smith" = (pyStrip "Jane Smith", "")) ∧
    (splitWS (String.mk (("Jane Smith" : String).data.filter (fun c => !(c = ',')))) =
        "Jane" :: "Smith" :: [] ∧
      splitNameWeb "Jane Smith" = ("Jane", joinSep " " ("Smith" :: []))) :=
  ⟨⟨by decide, C3_split_name_amended.2.1 "Van Dyke" "  Jane " (by decide)⟩,
   ⟨by decide, C3_split_name_amended.2.2.1 "Jane Smith" (by decide) (by decide)⟩,
   ⟨by decide, C3_split_name_amended.2.2.2.2.2.1 "Jane Smith" "Jane" "Smith" [] (by decide)⟩⟩

/-- The leading course-number digit of a web-UI row when it is well formed
(0 as an unused default otherwise); used to state facts about the ug/grad
partition under a well-formedness hypothesis. -/
def leadDigitD (r : WebRow) : Nat :=
  match leadDigitInt r.courseNumber with
  | Except.ok d => d
  | Except.error _ => 0

/-- The web-UI undergraduate test: leading digit at most 6. -/
def webIsUg (r : WebRow) : Bool := leadDigitD r ≤ 6

/-- The web-UI graduate test: leading digit at least 7. -/
def webIsGrad (r : WebRow) : Bool := 7 ≤ leadDigitD r

theorem webLeadDigits_ok (rows : List WebRow) (l : List (WebRow × Nat))
    (h : webLeadDigits rows = Except.ok l) :
    l = rows.map (fun r => (r, leadDigitD r)) := by
  induction rows generalizing l with
  | nil =>
    simp only [webLeadDigits] at h
    cases h
    simp
  | cons r rest ih =>
    simp only [webLeadDigits] at h
    cases he : leadDigitInt r.courseNumber with
    | error e => rw [he] at h; cases h
    | ok d =>
      rw [he] at h
      cases hr : webLeadDigits rest with
      | error e => rw [hr] at h; cases h
      | ok l2 =>
        rw [hr] at h
        cases h
        have hd : leadDigitD r = d := by simp [leadDigitD, he]
        simp [ih l2 hr, hd]

theorem webWorkloadRow_ok (i : String) (rows : List WebRow) (w : WorkloadRow)
    (h : webWorkloadRow i rows = Except.ok w) :
    w.lastName = (splitNameWeb i).1 ∧
    w.firstName = (splitNameWeb i).2 ∧
    w.ugClasses = (rows.filter webIsUg).length ∧
    w.ugStudents = ((rows.filter webIsUg).map (fun r => r.enrollment)).sum ∧
    w.ugSupClasses =
      ((rows.filter webIsUg).filter (fun r => webSupervision r.component)).length ∧
    w.ugSupStudents =
      (((rows.filter webIsUg).filter (fun r => webSupervision r.component)).map
        (fun r => r.enrollment)).sum ∧
    w.gradClasses = (rows.filter webIsGrad).length ∧
    w.gradStudents = ((rows.filter webIsGrad).map (fun r => r.enrollment)).sum ∧
    w.gradSupClasses =
      ((rows.filter webIsGrad).filter (fun r => webSupervision r.component)).length ∧
    w.gradSupStudents =
      (((rows.filter webIsGrad).filter (fun r => webSupervision r.component)).map
        (fun r => r.enrollment)).sum := by
  unfold webWorkloadRow at h
  cases hl : webLeadDigits rows with
  | error e => rw [hl] at h; cases h
  | ok l =>
    rw [hl] at h
    simp only [Except.map] at h
    cases h
    have hld := webLeadDigits_ok rows l hl
    subst hld
    unfold webIsUg webIsGrad
    refine ⟨rfl, rfl, ?_, ?_, ?_, ?_, ?_, ?_, ?_, ?_⟩ <;>
      simp [List.filter_map, List.filter_filter, List.map_map, Function.comp_def]

/-- Claim C1: for every raw course row the classifier sets level = grad iff
the course number meets the variant's threshold: desktop — iff the first
standalone 3-digit numeric token of course_code is at least 700 (699 gives
ug, 700 gives grad), with level = ug when no such token exists; web-UI — a
row is in the grad bucket iff the leading digit of its course number is at
least 7 (leading digit 6 gives ug, 7 gives grad). -/
theorem C1_level_threshold :
    (∀ r : RawRow, ((classify_courses r).level = "grad" ↔
        ∃ n, firstStandaloneTriple r.course_code = some n ∧ 700 ≤ n)) ∧
    (∀ r : RawRow, firstStandaloneTriple r.course_code = none →
        (classify_courses r).level = "ug") ∧
    firstStandaloneTriple "FIN 699" = some 699 ∧
    firstStandaloneTriple "FIN 700" = some 700 ∧
    (∀ r : RawRow, r.course_code = "FIN 699" → (classify_courses r).level = "ug") ∧
    (∀ r : RawRow, r.course_code = "FIN 700" → (classify_courses r).level = "grad") ∧
    (∀ i : String, ∀ rows : List WebRow, ∀ w : WorkloadRow,
        webWorkloadRow i rows = Except.ok w →
        w.gradClasses = (rows.filter webIsGrad).length ∧
        w.ugClasses = (rows.filter webIsUg).length) ∧
    (∀ r : WebRow, ∀ rest : List Char, r.courseNumber.data = '6' :: rest →
        webIsGrad r = false ∧ webIsUg r = true) ∧
    (∀ r : WebRow, ∀ rest : List Char, r.courseNumber.data = '7' :: rest →
        webIsGrad r = true ∧ webIsUg r = false) := by
  refine ⟨?_, ?_, by decide, by decide, ?_, ?_, ?_, ?_, ?_⟩
  · intro r
    simp only [classify_courses]
    cases h : firstStandaloneTriple r.course_code with
    | none => simp [is_grad, h]
    | some n =>
      by_cases hn : 700 ≤ n
      · simp [is_grad, h, hn]
      · simp [is_grad, h, hn]
  · intro r h
    simp [classify_courses, is_grad, h]
  · intro r h
    simp only [classify_courses, is_grad, h]
    decide
  · intro r h
    simp only [classify_courses, is_grad, h]
    decide
  · intro i rows w h
    exact ⟨(webWorkloadRow_ok i rows w h).2.2.2.2.2.2.1,
           (webWorkloadRow_ok i rows w h).2.2.1⟩
  · intro r rest h
    have h6 : leadDigitD r = 6 := by
      simp only [leadDigitD, leadDigitInt, h]
      decide
    constructor <;> simp [webIsGrad, webIsUg, h6]
  · intro r rest h
    have h7 : leadDigitD r = 7 := by
      simp only [leadDigitD, leadDigitInt, h]
      decide
    constructor <;> simp [webIsGrad, webIsUg, h7]

/-- Witness for C1 at concrete inputs: a "FIN 699" row classifies ug, a
"FIN 700" row classifies grad, and a one-row web-UI workload with course
number "699" lands in the ug bucket while "700" lands in the grad bucket. -/
theorem C1_level_threshold_witness :
    ((⟨"", "T", "3", "FIN 699", "Smith, Jane", 10, "", none, "1"⟩ : RawRow).course_code
        = "FIN 699" ∧
      (classify_courses ⟨"", "T", "3", "FIN 699", "Smith, Jane", 10, "", none, "1"⟩).level
        = "ug") ∧
    ((⟨"", "T", "3", "FIN 700", "Smith, Jane", 10, "", none, "1"⟩ : RawRow).course_code
        = "FIN 700" ∧
      (classify_courses ⟨"", "T", "3", "FIN 700", "Smith, Jane", 10, "", none, "1"⟩).level
        = "grad") ∧
    (webWorkloadRow "Smith, Jane" [⟨"1001", "01", "LEC", "699", "Smith, Jane", "T", 10⟩]
        = Except.ok ⟨"Smith", "Jane", 1, 10, 0, 0, 0, 0, 0, 0⟩ ∧
      (WorkloadRow.gradClasses ⟨"Smith", "Jane", 1, 10, 0, 0, 0, 0, 0, 0⟩ =
          (([⟨"1001", "01", "LEC", "699", "Smith, Jane", "T", 10⟩] : List WebRow).filter
            webIsGrad).length ∧
        WorkloadRow.ugClasses ⟨"Smith", "Jane", 1, 10, 0, 0, 0, 0, 0, 0⟩ =
          (([⟨"1001", "01", "LEC", "699", "Smith, Jane", "T", 10⟩] : List WebRow).filter
            webIsUg).length)) :=
  ⟨⟨rfl, C1_level_threshold.2.2.2.2.1 _ rfl⟩,
   ⟨rfl, C1_level_threshold.2.2.2.2.2.1 _ rfl⟩,
   ⟨by rfl, C1_level_threshold.2.2.2.2.2.2.1 "Smith, Jane" _ _ (by rfl)⟩⟩

theorem collect_notes_eq_empty (ns : List String) (h : ∀ n ∈ ns, n = "") :
    collect_notes ns = "" := by
  have hf : ns.filter (fun n => !(n = "")) = [] := by
    rw [List.filter_eq_nil_iff]
    intro a ha
    simp [h a ha]
  simp [collect_notes, hf, sortStrings, joinSep]

/-- Claim C7: for every instructor group the output note string equals the
group's non-empty note values deduplicated, sorted lexicographically and
joined with "; "; the claim's example notes produce "cross-listed; paired",
and a group with no non-empty notes gets the empty string. -/
theorem C7_note_collection :
    collect_notes ["cross-listed", "", "paired", "cross-listed"] = "cross-listed; paired" ∧
    collect_notes ["paired", "cross-listed"] = "cross-listed; paired" ∧
    (∀ ns : List String, (∀ n ∈ ns, n = "") → collect_notes ns = "") ∧
    (∀ rows : List ClassifiedRow, ∀ key : String × String,
      (∀ r ∈ groupRows rows key, r.note = "") → noteEntry rows key = "") := by
  refine ⟨by decide, by decide, ?_, ?_⟩
  · exact collect_notes_eq_empty
  · intro rows key h
    unfold noteEntry
    apply collect_notes_eq_empty
    intro n hn
    rw [List.mem_map] at hn
    obtain ⟨r, hr, hrn⟩ := hn
    rw [← hrn]
    exact h r hr

/-- Witness for C7 at concrete inputs: an all-empty note list yields "", and
a one-row group whose note is empty gets the empty note entry. -/
theorem C7_note_collection_witness :
    ((∀ n ∈ (["", ""] : List String), n = "") ∧ collect_notes ["", ""] = "") ∧
    ((∀ r ∈ groupRows [⟨⟨"", "T", "3", "FIN 350", "Smith, Jane", 10, "", none, "1"⟩, "ug", false⟩]
          ("Smith", "Jane"), r.note = "") ∧
      noteEntry [⟨⟨"", "T", "3", "FIN 350", "Smith, Jane", 10, "", none, "1"⟩, "ug", false⟩]
          ("Smith", "Jane") = "") :=
  ⟨⟨by decide, C7_note_collection.2.2.1 ["", ""] (by decide)⟩,
   ⟨by decide, C7_note_collection.2.2.2 _ ("Smith", "Jane") (by decide)⟩⟩

/-- Claim C4 counterexample: the claim says rows whose instructor is a
sentinel ("TBA"/"Staff") are dropped and never appear in the output; in the
desktop variant the cell "Instructors: TBA" is stored as instructor "TBA",
passes `parse_rows`'s keep filter (which only rejects empty instructors),
and produces a summary row keyed ("TBA", ""). -/
theorem C4_counterexample :
    extractInstructor "Instructors: TBA" = "TBA" ∧
    parseKeeps "TBA" = true ∧
    ("TBA", "") ∈ summaryKeys
      [classify_courses ⟨"", "T", "3", "FIN 350", "TBA", 0, "", none, "1"⟩] := by
  refine ⟨by decide, by decide, by decide⟩

/-- Claim C4 (amended): in the web-UI variant, a row whose candidate
instructor cells are all empty or "TBA"/"Staff" is stored under the "TBA"
sentinel, and no workload row is emitted for "TBA"; in the desktop variant
only rows with an empty (or whitespace-only) instructor are dropped — "TBA"
and "Staff" instructors are kept and appear in the summary. -/
theorem C4_sentinel_amended :
    (∀ cands : List String,
      (∀ t ∈ cands, pyStrip t = "" ∨ pyStrip t = "TBA" ∨ pyStrip t = "Staff") →
      webSelectInstructor cands = "TBA") ∧
    (∀ rows : List WebRow, "TBA" ∉ webWorkloadInstructors rows) ∧
    (∀ s : String, parseKeeps s = true ↔ (s ≠ "" ∧ pyStrip s ≠ "")) ∧
    parseKeeps "TBA" = true ∧ parseKeeps "Staff" = true ∧ parseKeeps "" = false := by
  refine ⟨?_, ?_, ?_, by decide, by decide, by decide⟩
  · intro cands h
    unfold webSelectInstructor
    have hn : (cands.map pyStrip).find?
        (fun t => !(t = "" || t = "TBA" || t = "Staff")) = none := by
      rw [List.find?_eq_none]
      intro x hx
      rw [List.mem_map] at hx
      obtain ⟨t, ht, rfl⟩ := hx
      rcases h t ht with h1 | h1 | h1 <;> simp [h1]
    rw [hn]
  · intro rows h
    unfold webWorkloadInstructors at h
    rw [List.mem_filter] at h
    simp at h
  · intro s
    simp [parseKeeps]

/-- Witness for C4's amended theorem at concrete inputs: candidate cells
["", " TBA ", "Staff"] select the "TBA" sentinel, and "TBA" is absent from
the workload instructors of a one-row frame whose instructor is "TBA". -/
theorem C4_sentinel_amended_witness :
    ((∀ t ∈ (["", " TBA ", "Staff"] : List String),
        pyStrip t = "" ∨ pyStrip t = "TBA" ∨ pyStrip t = "Staff") ∧
      webSelectInstructor ["", " TBA ", "Staff"] = "TBA") ∧
    "TBA" ∉ webWorkloadInstructors [⟨"1001", "01", "LEC", "350", "TBA", "T", 10⟩] :=
  ⟨⟨by decide, C4_sentinel_amended.1 ["", " TBA ", "Staff"] (by decide)⟩,
   C4_sentinel_amended.2.1 [⟨"1001", "01", "LEC", "350", "TBA", "T", 10⟩]⟩

/-- Claim C5 counterexample: the claim says every input yields the fixed
11-column schema with empty buckets as 0-valued columns; but the desktop
pivot only creates columns for buckets that occur in the input, so a single
ug-lecture row yields a 5-column output, and the web-UI variant's output has
no note column at all. -/
theorem C5_counterexample :
    finalColumns [classify_courses ⟨"", "T", "3", "FIN 350", "Smith, Jane", 10, "", none, "1"⟩]
      ≠ column_order ∧
    "note" ∉ webColumns := by
  refine ⟨by decide, by decide⟩

/-- Claim C5 (amended): the desktop output uses the fixed column order and
the literal typo-preserving labels, but restricted to buckets that occur
somewhere in the input: a bucket with no rows in the whole input is an
absent column (when every bucket occurs the output is exactly the 11-column
schema); within a produced column, an instructor with no rows in that bucket
gets 0 (the pivot's fill value).  The web-UI output always has the 10 fixed
metric columns (note column absent). -/
theorem C5_schema_amended :
    (∀ rows : List ClassifiedRow,
      (∀ b ∈ bucketNames, rows.any (fun r => bucket r = b) = true) →
      finalColumns rows = column_order) ∧
    (∀ rows : List ClassifiedRow, ∀ key : String × String, ∀ b : String,
      (∀ r ∈ groupRows rows key, ¬ bucket r = b) →
      class_count rows key b = 0 ∧ student_count rows key b = 0) ∧
    webColumns.length = 10 ∧ "note" ∉ webColumns ∧
    finalColumns [classify_courses ⟨"", "T", "3", "FIN 350", "Smith, Jane", 10, "", none, "1"⟩]
      = ["Last Name", "First Name", "Total # of UG classes",
         "Total # of UG students from Column D", "note"] := by
  refine ⟨?_, ?_, by decide, by decide, by decide⟩
  · intro rows h
    unfold finalColumns availableColumns
    rw [List.filter_eq_self.mpr h]
    decide
  · intro rows key b h
    have hf : (groupRows rows key).filter (fun r => decide (bucket r = b)) = [] := by
      rw [List.filter_eq_nil_iff]
      intro a ha
      simp [h a ha]
    constructor
    · unfold class_count
      rw [hf]
      rfl
    · unfold student_count
      rw [hf]
      rfl

/-- Witness for C5's amended theorem: an input with one row in each bucket
produces exactly the fixed 11-column schema, and a one-row ug-lecture input
has 0 in the grad-supervision cells of its instructor. -/
theorem C5_schema_amended_witness :
    ((∀ b ∈ bucketNames,
        ([classify_courses ⟨"", "Business Finance", "3", "FIN 350", "Smith, Jane", 30, "", none, "1"⟩,
          classify_courses ⟨"", "Internship", "3", "FIN 650", "Smith, Jane", 5, "", none, "2"⟩,
          classify_courses ⟨"", "Seminar", "3", "FIN 850", "Smith, Jane", 12, "", none, "3"⟩,
          classify_courses ⟨"", "Thesis", "3", "FIN 898", "Smith, Jane", 2, "", none, "4"⟩]).any
          (fun r => bucket r = b) = true) ∧
      finalColumns
        [classify_courses ⟨"", "Business Finance", "3", "FIN 350", "Smith, Jane", 30, "", none, "1"⟩,
         classify_courses ⟨"", "Internship", "3", "FIN 650", "Smith, Jane", 5, "", none, "2"⟩,
         classify_courses ⟨"", "Seminar", "3", "FIN 850", "Smith, Jane", 12, "", none, "3"⟩,
         classify_courses ⟨"", "Thesis", "3", "FIN 898", "Smith, Jane", 2, "", none, "4"⟩]
        = column_order) ∧
    ((∀ r ∈ groupRows [classify_courses ⟨"", "Business Finance", "3", "FIN 350", "Smith, Jane", 30, "", none, "1"⟩]
          ("Smith", "Jane"), ¬ bucket r = "grad_superv") ∧
      (class_count [classify_courses ⟨"", "Business Finance", "3", "FIN 350", "Smith, Jane", 30, "", none, "1"⟩]
          ("Smith", "Jane") "grad_superv" = 0 ∧
        student_count [classify_courses ⟨"", "Business Finance", "3", "FIN 350", "Smith, Jane", 30, "", none, "1"⟩]
          ("Smith", "Jane") "grad_superv" = 0)) :=
  ⟨⟨by decide, C5_schema_amended.1 _ (by decide)⟩,
   ⟨by decide, C5_schema_amended.2.1 _ ("Smith", "Jane") "grad_superv" (by decide)⟩⟩

theorem bucket_cases (r : ClassifiedRow) :
    bucket r = "ug_lecture" ∨ bucket r = "ug_superv" ∨
    bucket r = "grad_lecture" ∨ bucket r = "grad_superv" := by
  unfold bucket
  split_ifs <;> simp

theorem desktop_partition (g : List ClassifiedRow) :
    (g.filter (fun r => decide (bucket r = "ug_lecture"))).length +
      (g.filter (fun r => decide (bucket r = "ug_superv"))).length +
      (g.filter (fun r => decide (bucket r = "grad_lecture"))).length +
      (g.filter (fun r => decide (bucket r = "grad_superv"))).length = g.length ∧
    ((g.filter (fun r => decide (bucket r = "ug_lecture"))).map (fun r => r.enrolled)).sum +
      ((g.filter (fun r => decide (bucket r = "ug_superv"))).map (fun r => r.enrolled)).sum +
      ((g.filter (fun r => decide (bucket r = "grad_lecture"))).map (fun r => r.enrolled)).sum +
      ((g.filter (fun r => decide (bucket r = "grad_superv"))).map (fun r => r.enrolled)).sum
      = (g.map (fun r => r.enrolled)).sum := by
  induction g with
  | nil => simp
  | cons r t ih =>
    rcases bucket_cases r with h | h | h | h <;>
      simp only [List.filter_cons, h, List.map_cons, List.sum_cons, List.length_cons] <;>
      simp <;> omega

theorem webIsGrad_eq_not_ug (r : WebRow) : webIsGrad r = !webIsUg r := by
  unfold webIsGrad webIsUg
  by_cases h : leadDigitD r ≤ 6
  · simp [h]
    omega
  · simp [h]
    omega

theorem web_partition (rows : List WebRow) :
    (rows.filter webIsUg).length + (rows.filter webIsGrad).length = rows.length ∧
    ((rows.filter webIsUg).map (fun r => r.enrollment)).sum +
      ((rows.filter webIsGrad).map (fun r => r.enrollment)).sum
      = (rows.map (fun r => r.enrollment)).sum ∧
    ((rows.filter webIsUg).filter (fun r => webSupervision r.component)).length +
      ((rows.filter webIsGrad).filter (fun r => webSupervision r.component)).length
      = (rows.filter (fun r => webSupervision r.component)).length := by
  induction rows with
  | nil => simp
  | cons r t ih =>
    simp only [List.filter_filter] at ih ⊢
    have hg := webIsGrad_eq_not_ug r
    by_cases h : webIsUg r = true <;>
      by_cases hs : webSupervision r.component = true <;>
      simp [List.filter_cons, h, hs, hg, List.sum_cons] <;>
      omega

/-- Claim C2 counterexample: the claim's sum property fails in the web-UI
variant, whose four class-count columns are (all-UG, UG-supervision,
all-Grad, Grad-supervision): a single undergraduate supervision class
(component "IND", course number "300") is counted both in the UG column and
in the UG-supervision column, so the four counts sum to 2, not to the
instructor's 1 input row. -/
theorem C2_counterexample :
    (webWorkloadRow "Smith, Jane" [⟨"1001", "01", "IND", "300", "Smith, Jane", "T", 10⟩]).map
        (fun w => w.ugClasses + w.ugSupClasses + w.gradClasses + w.gradSupClasses)
      ≠ Except.ok
          ([(⟨"1001", "01", "IND", "300", "Smith, Jane", "T", 10⟩ : WebRow)]).length := by
  have h : (webWorkloadRow "Smith, Jane"
      [⟨"1001", "01", "IND", "300", "Smith, Jane", "T", 10⟩]).map
        (fun w => w.ugClasses + w.ugSupClasses + w.gradClasses + w.gradSupClasses)
      = Except.ok 2 := by rfl
  rw [h]
  simp

/-- Claim C2 (amended): in the desktop variant the sum of the four per-bucket
class counts of an instructor equals that instructor's number of rows, and
the four per-bucket student counts sum to the total enrollment of those
rows, as the claim states.  In the web-UI variant the UG/Grad class columns
already include the supervision rows, so the four count columns sum to the
row count plus the supervision-row count (supervision rows counted twice);
there the UG + Grad class counts alone equal the row count, and the
UG + Grad student counts equal the summed enrollment. -/
theorem C2_sum_property_amended :
    (∀ rows : List ClassifiedRow, ∀ key : String × String,
      class_count rows key "ug_lecture" + class_count rows key "ug_superv" +
        class_count rows key "grad_lecture" + class_count rows key "grad_superv"
        = (groupRows rows key).length ∧
      student_count rows key "ug_lecture" + student_count rows key "ug_superv" +
        student_count rows key "grad_lecture" + student_count rows key "grad_superv"
        = ((groupRows rows key).map (fun r => r.enrolled)).sum) ∧
    (∀ i : String, ∀ rows : List WebRow, ∀ w : WorkloadRow,
      webWorkloadRow i rows = Except.ok w →
      w.ugClasses + w.gradClasses = rows.length ∧
      w.ugStudents + w.gradStudents = (rows.map (fun r => r.enrollment)).sum ∧
      w.ugClasses + w.ugSupClasses + w.gradClasses + w.gradSupClasses
        = rows.length + (rows.filter (fun r => webSupervision r.component)).length) := by
  constructor
  · intro rows key
    have h := desktop_partition (groupRows rows key)
    exact ⟨h.1, h.2⟩
  · intro i rows w h
    obtain ⟨_, _, e3, e4, e5, _, e7, e8, e9, _⟩ := webWorkloadRow_ok i rows w h
    have hp := web_partition rows
    refine ⟨?_, ?_, ?_⟩
    · rw [e3, e7]
      exact hp.1
    · rw [e4, e8]
      exact hp.2.1
    · rw [e3, e5, e7, e9]
      have := hp.2.2
      omega

/-- Witness for C2's amended theorem: a two-row desktop instructor group
(one ug lecture with 30 students, one grad supervision with 5) sums to 2
classes and 35 students across the four buckets, and a one-row web-UI group
with an "IND" component shows the double count 1 + 1 + 0 + 0 = 1 + 1. -/
theorem C2_sum_property_amended_witness :
    (class_count
        [classify_courses ⟨"", "Business Finance", "3", "FIN 350", "Smith, Jane", 30, "", none, "1"⟩,
         classify_courses ⟨"", "Thesis", "3", "FIN 898", "Smith, Jane", 5, "", none, "2"⟩]
        ("Smith", "Jane") "ug_lecture" +
      class_count
        [classify_courses ⟨"", "Business Finance", "3", "FIN 350", "Smith, Jane", 30, "", none, "1"⟩,
         classify_courses ⟨"", "Thesis", "3", "FIN 898", "Smith, Jane", 5, "", none, "2"⟩]
        ("Smith", "Jane") "ug_superv" +
      class_count
        [classify_courses ⟨"", "Business Finance", "3", "FIN 350", "Smith, Jane", 30, "", none, "1"⟩,
         classify_courses ⟨"", "Thesis", "3", "FIN 898", "Smith, Jane", 5, "", none, "2"⟩]
        ("Smith", "Jane") "grad_lecture" +
      class_count
        [classify_courses ⟨"", "Business Finance", "3", "FIN 350", "Smith, Jane", 30, "", none, "1"⟩,
         classify_courses ⟨"", "Thesis", "3", "FIN 898", "Smith, Jane", 5, "", none, "2"⟩]
        ("Smith", "Jane") "grad_superv"
      = (groupRows
          [classify_courses ⟨"", "Business Finance", "3", "FIN 350", "Smith, Jane", 30, "", none, "1"⟩,
           classify_courses ⟨"", "Thesis", "3", "FIN 898", "Smith, Jane", 5, "", none, "2"⟩]
          ("Smith", "Jane")).length) ∧
    (webWorkloadRow "Smith, Jane" [⟨"1001", "01", "IND", "300", "Smith, Jane", "T", 10⟩]
        = Except.ok ⟨"Smith", "Jane", 1, 10, 1, 10, 0, 0, 0, 0⟩ ∧
      WorkloadRow.ugClasses ⟨"Smith", "Jane", 1, 10, 1, 10, 0, 0, 0, 0⟩ +
          WorkloadRow.gradClasses ⟨"Smith", "Jane", 1, 10, 1, 10, 0, 0, 0, 0⟩
        = ([(⟨"1001", "01", "IND", "300", "Smith, Jane", "T", 10⟩ : WebRow)]).length) :=
  ⟨(C2_sum_property_amended.1 _ ("Smith", "Jane")).1,
   ⟨by rfl, (C2_sum_property_amended.2 "Smith, Jane" _ _ (by rfl)).1⟩⟩

/-- Claim C6: aggregation is order-independent — permuting the classified
rows changes no per-instructor bucketed class count or summed enrollment in
the desktop pivot, and permuting the web-UI frame leaves every instructor's
workload record unchanged. -/
theorem C6_permutation_invariance :
    (∀ rows rows2 : List ClassifiedRow, rows.Perm rows2 →
      ∀ key : String × String, ∀ b : String,
      class_count rows key b = class_count rows2 key b ∧
      student_count rows key b = student_count rows2 key b) ∧
    (∀ wrows wrows2 : List WebRow, wrows.Perm wrows2 →
      ∀ i : String, ∀ w w2 : WorkloadRow,
      webWorkloadRow i wrows = Except.ok w → webWorkloadRow i wrows2 = Except.ok w2 →
      w = w2) := by
  constructor
  · intro rows rows2 h key b
    have hf : ((groupRows rows key).filter (fun r => decide (bucket r = b))).Perm
        ((groupRows rows2 key).filter (fun r => decide (bucket r = b))) :=
      (h.filter (fun r => decide (nameKey r = key))).filter _
    unfold class_count student_count
    exact ⟨hf.length_eq, (hf.map (fun r => r.enrolled)).sum_eq⟩
  · intro a b hp i w w2 hw hw2
    have l1 : (a.filter webIsUg).length = (b.filter webIsUg).length :=
      (hp.filter _).length_eq
    have l2 : (a.filter webIsGrad).length = (b.filter webIsGrad).length :=
      (hp.filter _).length_eq
    have l3 : ((a.filter webIsUg).filter (fun r => webSupervision r.component)).length
        = ((b.filter webIsUg).filter (fun r => webSupervision r.component)).length :=
      ((hp.filter _).filter _).length_eq
    have l4 : ((a.filter webIsGrad).filter (fun r => webSupervision r.component)).length
        = ((b.filter webIsGrad).filter (fun r => webSupervision r.component)).length :=
      ((hp.filter _).filter _).length_eq
    have s1 : ((a.filter webIsUg).map (fun r => r.enrollment)).sum
        = ((b.filter webIsUg).map (fun r => r.enrollment)).sum :=
      ((hp.filter _).map _).sum_eq
    have s2 : ((a.filter webIsGrad).map (fun r => r.enrollment)).sum
        = ((b.filter webIsGrad).map (fun r => r.enrollment)).sum :=
      ((hp.filter _).map _).sum_eq
    have s3 : (((a.filter webIsUg).filter (fun r => webSupervision r.component)).map
          (fun r => r.enrollment)).sum
        = (((b.filter webIsUg).filter (fun r => webSupervision r.component)).map
          (fun r => r.enrollment)).sum :=
      (((hp.filter _).filter _).map _).sum_eq
    have s4 : (((a.filter webIsGrad).filter (fun r => webSupervision r.component)).map
          (fun r => r.enrollment)).sum
        = (((b.filter webIsGrad).filter (fun r => webSupervision r.component)).map
          (fun r => r.enrollment)).sum :=
      (((hp.filter _).filter _).map _).sum_eq
    obtain ⟨e1, e2, e3, e4, e5, e6, e7, e8, e9, e10⟩ := webWorkloadRow_ok i a w hw
    obtain ⟨f1, f2, f3, f4, f5, f6, f7, f8, f9, f10⟩ := webWorkloadRow_ok i b w2 hw2
    cases w
    cases w2
    simp only [WorkloadRow.mk.injEq]
    simp only at e1 e2 e3 e4 e5 e6 e7 e8 e9 e10 f1 f2 f3 f4 f5 f6 f7 f8 f9 f10
    subst e1 e2 e3 e4 e5 e6 e7 e8 e9 e10 f1 f2 f3 f4 f5 f6 f7 f8 f9 f10
    exact ⟨rfl, rfl, l1, s1, l3, s3, l2, s2, l4, s4⟩

/-- Witness for C6 at a concrete permutation: swapping the two rows of a
desktop input changes neither the ug-lecture class count nor its student
count for ("Smith", "Jane"), and swapping a two-row web-UI frame yields the
same workload record. -/
theorem C6_permutation_invariance_witness :
    (([classify_courses ⟨"", "Business Finance", "3", "FIN 350", "Smith, Jane", 30, "", none, "1"⟩,
       classify_courses ⟨"", "Thesis", "3", "FIN 898", "Smith, Jane", 5, "", none, "2"⟩] :
        List ClassifiedRow).Perm
      [classify_courses ⟨"", "Thesis", "3", "FIN 898", "Smith, Jane", 5, "", none, "2"⟩,
       classify_courses ⟨"", "Business Finance", "3", "FIN 350", "Smith, Jane", 30, "", none, "1"⟩] ∧
      class_count
        [classify_courses ⟨"", "Business Finance", "3", "FIN 350", "Smith, Jane", 30, "", none, "1"⟩,
         classify_courses ⟨"", "Thesis", "3", "FIN 898", "Smith, Jane", 5, "", none, "2"⟩]
        ("Smith", "Jane") "ug_lecture"
        = class_count
        [classify_courses ⟨"", "Thesis", "3", "FIN 898", "Smith, Jane", 5, "", none, "2"⟩,
         classify_courses ⟨"", "Business Finance", "3", "FIN 350", "Smith, Jane", 30, "", none, "1"⟩]
        ("Smith", "Jane") "ug_lecture") ∧
    (webWorkloadRow "Smith, Jane"
        [⟨"1001", "01", "LEC", "350", "Smith, Jane", "T", 30⟩,
         ⟨"1002", "02", "IND", "898", "Smith, Jane", "T", 5⟩] = Except.ok
        ⟨"Smith", "Jane", 1, 30, 0, 0, 1, 5, 1, 5⟩ ∧
      webWorkloadRow "Smith, Jane"
        [⟨"1002", "02", "IND", "898", "Smith, Jane", "T", 5⟩,
         ⟨"1001", "01", "LEC", "350", "Smith, Jane", "T", 30⟩] = Except.ok
        ⟨"Smith", "Jane", 1, 30, 0, 0, 1, 5, 1, 5⟩ ∧
      (⟨"Smith", "Jane", 1, 30, 0, 0, 1, 5, 1, 5⟩ : WorkloadRow)
        = ⟨"Smith", "Jane", 1, 30, 0, 0, 1, 5, 1, 5⟩) :=
  ⟨⟨List.Perm.swap _ _ _,
    (C6_permutation_invariance.1 _ _ (List.Perm.swap _ _ _) ("Smith", "Jane") "ug_lecture").1⟩,
   ⟨by rfl, by rfl,
    C6_permutation_invariance.2
      [⟨"1001", "01", "LEC", "350", "Smith, Jane", "T", 30⟩,
       ⟨"1002", "02", "IND", "898", "Smith, Jane", "T", 5⟩]
      [⟨"1002", "02", "IND", "898", "Smith, Jane", "T", 5⟩,
       ⟨"1001", "01", "LEC", "350", "Smith, Jane", "T", 30⟩]
      (List.Perm.swap _ _ _) "Smith, Jane" _ _ (by rfl) (by rfl)⟩⟩

/-- Claim C8 counterexample: the claim says a malformed course number never
raises in either variant; in the web-UI variant a course number whose first
character is not a digit ("W101") makes the pandas astype(int) conversion
raise, and the error propagates out of the workload computation instead of
the row defaulting to ug. -/
theorem C8_counterexample :
    webWorkloadRow "Smith, Jane" [⟨"1001", "01", "LEC", "W101", "Smith, Jane", "T", 10⟩]
      = Except.error "invalid literal for int() with base 10" := by rfl

theorem webWorkloadRow_isOk_iff (i : String) (rows : List WebRow) :
    (webWorkloadRow i rows).isOk = (webLeadDigits rows).isOk := by
  unfold webWorkloadRow
  cases h : webLeadDigits rows <;> rfl

theorem webLeadDigits_total (rows : List WebRow)
    (h : ∀ r ∈ rows, (leadDigitInt r.courseNumber).isOk = true) :
    ∃ l, webLeadDigits rows = Except.ok l := by
  induction rows with
  | nil => exact ⟨[], rfl⟩
  | cons r t ih =>
    have hr := h r (List.mem_cons_self r t)
    obtain ⟨l, hl⟩ := ih (fun x hx => h x (List.mem_cons_of_mem r hx))
    cases he : leadDigitInt r.courseNumber with
    | error e =>
      rw [he] at hr
      simp [Except.isOk, Except.toBool] at hr
    | ok d => exact ⟨(r, d) :: l, by simp [webLeadDigits, he, hl]⟩

theorem webLeadDigits_err (rows : List WebRow) (r : WebRow) (hr : r ∈ rows)
    (h : (leadDigitInt r.courseNumber).isOk = false) :
    (webLeadDigits rows).isOk = false := by
  induction rows with
  | nil => cases hr
  | cons x t ih =>
    cases he : leadDigitInt x.courseNumber with
    | error e => simp [webLeadDigits, he, Except.isOk, Except.toBool]
    | ok d =>
      rcases List.mem_cons.mp hr with heq | hmem
      · subst heq
        rw [he] at h
        simp [Except.isOk, Except.toBool] at h
      · have hin := ih hmem
        cases ht : webLeadDigits t with
        | error e => simp [webLeadDigits, he, ht, Except.isOk, Except.toBool]
        | ok l =>
          rw [ht] at hin
          simp [Except.isOk, Except.toBool] at hin

/-- Claim C8 (amended): in the desktop variant classification is a total
function that never raises — a course code with no standalone 3-digit token
defaults to level ug, and every row gets a level of "ug" or "grad"; in the
web-UI variant a group whose course numbers all start with a digit
classifies without error, but a single row whose course number starts with a
non-digit raises the conversion error and aborts the whole instructor-group
computation rather than defaulting that row to ug. -/
theorem C8_classification_error_amended :
    (∀ r : RawRow, firstStandaloneTriple r.course_code = none →
      (classify_courses r).level = "ug") ∧
    (∀ r : RawRow,
      (classify_courses r).level = "ug" ∨ (classify_courses r).level = "grad") ∧
    (∀ rows : List WebRow, (∀ r ∈ rows, (leadDigitInt r.courseNumber).isOk = true) →
      ∀ i : String, (webWorkloadRow i rows).isOk = true) ∧
    (∀ rows : List WebRow, ∀ r : WebRow, r ∈ rows →
      (leadDigitInt r.courseNumber).isOk = false →
      ∀ i : String, (webWorkloadRow i rows).isOk = false) := by
  refine ⟨?_, ?_, ?_, ?_⟩
  · intro r h
    simp [classify_courses, is_grad, h]
  · intro r
    by_cases h : is_grad r.course_code = true
    · right
      simp [classify_courses, h]
    · left
      simp only [Bool.not_eq_true] at h
      simp [classify_courses, h]
  · intro rows h i
    rw [webWorkloadRow_isOk_iff]
    obtain ⟨l, hl⟩ := webLeadDigits_total rows h
    rw [hl]
    rfl
  · intro rows r hr h i
    rw [webWorkloadRow_isOk_iff]
    exact webLeadDigits_err rows r hr h

/-- Witness for C8's amended theorem at concrete inputs: course code "FIN"
has no 3-digit token and classifies ug; a web-UI row with course number
"699" computes without error; a web-UI row with course number "W101" makes
the group computation fail. -/
theorem C8_classification_error_amended_witness :
    (firstStandaloneTriple
        ((⟨"", "T", "3", "FIN", "Smith, Jane", 10, "", none, "1"⟩ : RawRow).course_code) = none ∧
      (classify_courses ⟨"", "T", "3", "FIN", "Smith, Jane", 10, "", none, "1"⟩).level = "ug") ∧
    ((∀ r ∈ ([⟨"1001", "01", "LEC", "699", "Smith, Jane", "T", 10⟩] : List WebRow),
        (leadDigitInt r.courseNumber).isOk = true) ∧
      (webWorkloadRow "Smith, Jane"
        [⟨"1001", "01", "LEC", "699", "Smith, Jane", "T", 10⟩]).isOk = true) ∧
    (((⟨"1001", "01", "LEC", "W101", "Smith, Jane", "T", 10⟩ : WebRow) ∈
        ([⟨"1001", "01", "LEC", "W101", "Smith, Jane", "T", 10⟩] : List WebRow) ∧
        (leadDigitInt
          ((⟨"1001", "01", "LEC", "W101", "Smith, Jane", "T", 10⟩ : WebRow).courseNumber)).isOk
          = false) ∧
      (webWorkloadRow "Smith, Jane"
        [⟨"1001", "01", "LEC", "W101", "Smith, Jane", "T", 10⟩]).isOk = false) :=
  ⟨⟨by decide, C8_classification_error_amended.1 _ (by decide)⟩,
   ⟨by decide, C8_classification_error_amended.2.2.1
      [⟨"1001", "01", "LEC", "699", "Smith, Jane", "T", 10⟩] (by decide) "Smith, Jane"⟩,
   ⟨⟨by decide, by decide⟩,
    C8_classification_error_amended.2.2.2
      [⟨"1001", "01", "LEC", "W101", "Smith, Jane", "T", 10⟩]
      ⟨"1001", "01", "LEC", "W101", "Smith, Jane", "T", 10⟩
      (by decide) (by decide) "Smith, Jane"⟩⟩

/-- Outcome of one desktop detail-page visit in `get_course_enrollment`
(`sf_state_scraper_interactive.py` lines 134-203), abstracting the browser
interaction: whether the navigation and outer try-block ran without raising,
the text of the first of the five enrollment selectors that resolved within
its bounded wait (none embeds that every selector's wait failed, i.e. the
inner loop found no element), and the first course-code pattern match in the
page source (none when the patterns found nothing or that block raised). -/
structure DesktopFetch where
  navigationOk : Bool
  elementText : Option String
  courseCodeMatch : Option String
deriving Repr, DecidableEq

/-- The first maximal digit run of a char list: the head of Python
`re.findall` with a digits pattern. -/
def firstDigitRun : List Char → Option (List Char)
  | [] => none
  | c :: rest =>
    if c.isDigit then some (c :: rest.takeWhile Char.isDigit)
    else firstDigitRun rest

/-- `int(numbers[0])` over `re.findall` of a digits pattern on the stripped
element text (`get_course_enrollment` lines 172-177): the value of the first
digit run, none when the text holds no digit. -/
def firstNumber (s : String) : Option Nat :=
  (firstDigitRun s.data).map (fun ds => ds.foldl (fun acc c => acc * 10 + digitVal c) 0)

/-- `get_course_enrollment` (desktop variant, lines 134-203): a missing
course link returns (0, ""); a raised navigation/outer error is caught and
returns (0, ""); otherwise enrollment is the first number in the first
resolved selector's stripped text, defaulting to 0 when no selector resolved
or the text holds no number, and the course code is the page-source pattern
match or "". -/
def get_course_enrollment (course_link : Option String) (page : DesktopFetch) :
    Nat × String :=
  match course_link with
  | none => (0, "")
  | some _ =>
    if !page.navigationOk then (0, "")
    else
      ((match page.elementText with
        | none => 0
        | some t =>
          match firstNumber (pyStrip t) with
          | some n => n
          | none => 0),
       (match page.courseCodeMatch with
        | some c => c
        | none => ""))

/-- One iteration of the desktop per-row enrollment loop (`main`, lines
573-591): rows without a course link are skipped (the parsed placeholder
enrollment 0 stays); a per-row exception is caught by the loop's handler and
the row is left unchanged (`continue`); otherwise the row's enrollment is
replaced by the extraction result and its course code by the extracted one
when non-empty. -/
def desktopFillRow (r : RawRow) (raised : Bool) (page : DesktopFetch) : RawRow :=
  match r.course_link with
  | none => r
  | some _ =>
    if raised then r
    else
      let res := get_course_enrollment r.course_link page
      { r with
        enrolled := res.1
        course_code := if res.2 = "" then r.course_code else res.2 }

/-- The desktop per-row enrollment loop over the whole batch: every row is
visited in order; no outcome aborts the loop. -/
def desktopFillEnrollments (rows : List RawRow) (raises : Nat → Bool)
    (pages : Nat → DesktopFetch) : List RawRow :=
  (rows.enum).map (fun p => desktopFillRow p.2 (raises p.1) (pages p.1))

/-- Claim C9: a failed per-row detail-page extraction defaults that row's
enrollment to 0 and the batch continues, in both variants.  Web variant: a
page that never signalled readiness yields 0, a page where no selector and
no fallback div held a parsable number yields 0, and the enrollment loop
still produces one output row per input row, each carrying exactly its own
page's extraction result.  Desktop variant: a navigation failure, an
element-not-found outcome, or an unparsable element text each yield
enrollment 0 from `get_course_enrollment`; a row whose processing raised
keeps its parsed placeholder enrollment 0; and the desktop loop maps every
input row to its own per-row result, preserving the batch length. -/
theorem C9_extraction_failure :
    (∀ page : DetailPage, page.pageReady = false →
      extract_enrollment_from_detail_page page = 0) ∧
    (∀ page : DetailPage, page.pageReady = true →
      (page.selectorTexts.filterMap id).find? (fun t => isDigits (pyStrip t)) = none →
      page.fallbackDivTexts.find?
        (fun t => isDigits (pyStrip t) && intOfDigits (pyStrip t) ≤ 500) = none →
      extract_enrollment_from_detail_page page = 0) ∧
    (∀ rows : List WebRow, ∀ pages : Nat → DetailPage,
      (fillEnrollments rows pages).length = rows.length) ∧
    (∀ rows : List WebRow, ∀ pages : Nat → DetailPage, ∀ n : Nat, ∀ r : WebRow,
      (fillEnrollments rows pages)[n]? = some r →
      r.enrollment = extract_enrollment_from_detail_page (pages n)) ∧
    (∀ link : Option String, ∀ page : DesktopFetch, page.navigationOk = false →
      (get_course_enrollment link page).1 = 0) ∧
    (∀ link : Option String, ∀ page : DesktopFetch, page.elementText = none →
      (get_course_enrollment link page).1 = 0) ∧
    (∀ link : Option String, ∀ page : DesktopFetch, ∀ s : String,
      page.elementText = some s → firstNumber (pyStrip s) = none →
      (get_course_enrollment link page).1 = 0) ∧
    (∀ r : RawRow, ∀ raised : Bool, ∀ page : DesktopFetch,
      r.enrolled = 0 → raised = true → (desktopFillRow r raised page).enrolled = 0) ∧
    (∀ rows : List RawRow, ∀ raises : Nat → Bool, ∀ pages : Nat → DesktopFetch,
      (desktopFillEnrollments rows raises pages).length = rows.length) ∧
    (∀ rows : List RawRow, ∀ raises : Nat → Bool, ∀ pages : Nat → DesktopFetch,
      ∀ n : Nat, ∀ r0 : RawRow, rows[n]? = some r0 →
      (desktopFillEnrollments rows raises pages)[n]?
        = some (desktopFillRow r0 (raises n) (pages n))) := by
  refine ⟨?_, ?_, ?_, ?_, ?_, ?_, ?_, ?_, ?_, ?_⟩
  · intro page h
    unfold extract_enrollment_from_detail_page
    simp [h]
  · intro page h1 h2 h3
    unfold extract_enrollment_from_detail_page
    simp [h1, h2, h3]
  · intro rows pages
    unfold fillEnrollments
    simp
  · intro rows pages n r h
    unfold fillEnrollments at h
    rw [List.getElem?_map, List.getElem?_enum] at h
    cases he : rows[n]? with
    | none =>
      rw [he] at h
      simp at h
    | some x =>
      rw [he] at h
      simp only [Option.map_some] at h
      cases h
      rfl
  · intro link page h
    cases link <;> simp [get_course_enrollment, h]
  · intro link page h
    cases link <;> cases hnav : page.navigationOk <;>
      simp [get_course_enrollment, h, hnav]
  · intro link page s h h2
    cases link <;> cases hnav : page.navigationOk <;>
      simp [get_course_enrollment, h, h2, hnav]
  · intro r raised page h hr
    cases hl : r.course_link with
    | none => simp [desktopFillRow, hl, h]
    | some x => simp [desktopFillRow, hl, hr, h]
  · intro rows raises pages
    unfold desktopFillEnrollments
    simp
  · intro rows raises pages n r0 h
    unfold desktopFillEnrollments
    rw [List.getElem?_map, List.getElem?_enum, h]
    rfl

/-- Witness for C9 at concrete inputs, both variants: an unready web page
yields 0; a ready web page whose selectors and fallback divs carry no
parsable number yields 0; a two-row web batch with a failed second page
keeps both rows, the failed one with 0; a desktop navigation failure, an
all-selectors-timeout and a no-digit element text each yield 0; a raised
desktop row keeps its placeholder 0; and the desktop loop maps a two-row
batch row by row. -/
theorem C9_extraction_failure_witness :
    ((DetailPage.pageReady ⟨false, [some "33"], ["12"]⟩ = false ∧
      extract_enrollment_from_detail_page ⟨false, [some "33"], ["12"]⟩ = 0) ∧
     (DetailPage.pageReady ⟨true, [none, some "abc"], ["no digits", "9999"]⟩ = true ∧
      extract_enrollment_from_detail_page ⟨true, [none, some "abc"], ["no digits", "9999"]⟩
        = 0)) ∧
    ((fillEnrollments
        [⟨"1001", "01", "LEC", "350", "Smith, Jane", "T", 0⟩,
         ⟨"1002", "02", "LEC", "450", "Smith, Jane", "T", 0⟩]
        (fun n => if n = 0 then ⟨true, [some "33"], []⟩ else ⟨false, [], []⟩)).length
      = 2 ∧
     (fillEnrollments
        [⟨"1001", "01", "LEC", "350", "Smith, Jane", "T", 0⟩,
         ⟨"1002", "02", "LEC", "450", "Smith, Jane", "T", 0⟩]
        (fun n => if n = 0 then ⟨true, [some "33"], []⟩ else ⟨false, [], []⟩))[1]?
      = some ⟨"1002", "02", "LEC", "450", "Smith, Jane", "T", 0⟩) ∧
    ((DesktopFetch.navigationOk ⟨false, some "33", some "FIN 350"⟩ = false ∧
      (get_course_enrollment (some "http://x") ⟨false, some "33", some "FIN 350"⟩).1 = 0) ∧
     (DesktopFetch.elementText ⟨true, none, none⟩ = none ∧
      (get_course_enrollment (some "http://x") ⟨true, none, none⟩).1 = 0) ∧
     (DesktopFetch.elementText ⟨true, some "Open", none⟩ = some "Open" ∧
      firstNumber (pyStrip "Open") = none ∧
      (get_course_enrollment (some "http://x") ⟨true, some "Open", none⟩).1 = 0)) ∧
    ((RawRow.enrolled ⟨"", "T", "3", "FIN 350", "Smith, Jane", 0, "", some "http://x", "1"⟩
        = 0 ∧
      (desktopFillRow ⟨"", "T", "3", "FIN 350", "Smith, Jane", 0, "", some "http://x", "1"⟩
        true ⟨true, some "33", none⟩).enrolled = 0) ∧
     (([(⟨"", "T", "3", "FIN 350", "Smith, Jane", 0, "", some "http://x", "1"⟩ : RawRow),
        ⟨"", "S", "3", "FIN 450", "Smith, Jane", 0, "", some "http://y", "2"⟩])[1]?
        = some ⟨"", "S", "3", "FIN 450", "Smith, Jane", 0, "", some "http://y", "2"⟩ ∧
      (desktopFillEnrollments
        [⟨"", "T", "3", "FIN 350", "Smith, Jane", 0, "", some "http://x", "1"⟩,
         ⟨"", "S", "3", "FIN 450", "Smith, Jane", 0, "", some "http://y", "2"⟩]
        (fun n => n = 1) (fun _ => ⟨true, some "33", none⟩))[1]?
        = some (desktopFillRow
            ⟨"", "S", "3", "FIN 450", "Smith, Jane", 0, "", some "http://y", "2"⟩
            (decide (1 = 1)) ⟨true, some "33", none⟩))) :=
  ⟨⟨⟨rfl, C9_extraction_failure.1 ⟨false, [some "33"], ["12"]⟩ rfl⟩,
    ⟨rfl, C9_extraction_failure.2.1 ⟨true, [none, some "abc"], ["no digits", "9999"]⟩
      rfl (by decide) (by decide)⟩⟩,
   ⟨C9_extraction_failure.2.2.1
      [⟨"1001", "01", "LEC", "350", "Smith, Jane", "T", 0⟩,
       ⟨"1002", "02", "LEC", "450", "Smith, Jane", "T", 0⟩]
      (fun n => if n = 0 then ⟨true, [some "33"], []⟩ else ⟨false, [], []⟩),
    by decide⟩,
   ⟨⟨rfl, C9_extraction_failure.2.2.2.2.1 (some "http://x")
      ⟨false, some "33", some "FIN 350"⟩ rfl⟩,
    ⟨rfl, C9_extraction_failure.2.2.2.2.2.1 (some "http://x") ⟨true, none, none⟩ rfl⟩,
    ⟨rfl, by decide,
     C9_extraction_failure.2.2.2.2.2.2.1 (some "http://x") ⟨true, some "Open", none⟩
       "Open" rfl (by decide)⟩⟩,
   ⟨⟨rfl, C9_extraction_failure.2.2.2.2.2.2.2.1
      ⟨"", "T", "3", "FIN 350", "Smith, Jane", 0, "", some "http://x", "1"⟩
      true ⟨true, some "33", none⟩ rfl rfl⟩,
    ⟨by decide, C9_extraction_failure.2.2.2.2.2.2.2.2.2
      [⟨"", "T", "3", "FIN 350", "Smith, Jane", 0, "", some "http://x", "1"⟩,
       ⟨"", "S", "3", "FIN 450", "Smith, Jane", 0, "", some "http://y", "2"⟩]
      (fun n => n = 1) (fun _ => ⟨true, some "33", none⟩) 1
      ⟨"", "S", "3", "FIN 450", "Smith, Jane", 0, "", some "http://y", "2"⟩
      (by decide)⟩⟩⟩

/-- Claim C10: when the desktop `parse_rows` reformats an "Instructors: ..."
cell it uses only the first two whitespace tokens of the name, producing
"second, first"; every token after the second is silently discarded (two
cells agreeing on their first two tokens produce the same stored
instructor), and a single-token name is kept verbatim with no comma. -/
theorem C10_instructor_reformat :
    (∀ cell p0 p1 : String, ∀ rest : List String,
      containsStr cell "Instructors:" = true →
      splitWS (pyStrip (String.mk (deleteSub 'I' "nstructors:".data cell.data)))
        = p0 :: p1 :: rest →
      extractInstructor cell = p1 ++ ", " ++ p0) ∧
    (∀ cell p0 : String,
      containsStr cell "Instructors:" = true →
      splitWS (pyStrip (String.mk (deleteSub 'I' "nstructors:".data cell.data))) = [p0] →
      extractInstructor cell = p0) ∧
    (∀ c1 c2 p0 p1 : String, ∀ r1 r2 : List String,
      containsStr c1 "Instructors:" = true →
      containsStr c2 "Instructors:" = true →
      splitWS (pyStrip (String.mk (deleteSub 'I' "nstructors:".data c1.data)))
        = p0 :: p1 :: r1 →
      splitWS (pyStrip (String.mk (deleteSub 'I' "nstructors:".data c2.data)))
        = p0 :: p1 :: r2 →
      extractInstructor c1 = extractInstructor c2) ∧
    extractInstructor "Instructors: Mary Jo Ann Smith" = "Jo, Mary" ∧
    extractInstructor "Instructors: Cher" = "Cher" := by
  have h2tok : ∀ cell p0 p1 : String, ∀ rest : List String,
      containsStr cell "Instructors:" = true →
      splitWS (pyStrip (String.mk (deleteSub 'I' "nstructors:".data cell.data)))
        = p0 :: p1 :: rest →
      extractInstructor cell = p1 ++ ", " ++ p0 := by
    intro cell p0 p1 rest h hsp
    unfold extractInstructor
    simp [h, hsp]
  refine ⟨h2tok, ?_, ?_, by decide, by decide⟩
  · intro cell p0 h hsp
    unfold extractInstructor
    simp [h, hsp]
  · intro c1 c2 p0 p1 r1 r2 h1 h2 hs1 hs2
    rw [h2tok c1 p0 p1 r1 h1 hs1, h2tok c2 p0 p1 r2 h2 hs2]

/-- Witness for C10 at concrete inputs: the four-token cell
"Instructors: Mary Jo Ann Smith" stores "Jo, Mary" (tokens "Ann" and
"Smith" discarded), the cells with trailing tokens "Ann Smith" and "Brown"
store the same instructor, and the one-token cell stores "Cher". -/
theorem C10_instructor_reformat_witness :
    (containsStr "Instructors: Mary Jo Ann Smith" "Instructors:" = true ∧
      splitWS (pyStrip (String.mk
          (deleteSub 'I' "nstructors:".data ("Instructors: Mary Jo Ann Smith" : String).data)))
        = "Mary" :: "Jo" :: ["Ann", "Smith"] ∧
      extractInstructor "Instructors: Mary Jo Ann Smith" = "Jo" ++ ", " ++ "Mary") ∧
    (extractInstructor "Instructors: Mary Jo Ann Smith"
        = extractInstructor "Instructors: Mary Jo Brown") ∧
    (containsStr "Instructors: Cher" "Instructors:" = true ∧
      splitWS (pyStrip (String.mk
          (deleteSub 'I' "nstructors:".data ("Instructors: Cher" : String).data))) = ["Cher"] ∧
      extractInstructor "Instructors: Cher" = "Cher") :=
  ⟨⟨by decide, by decide,
    C10_instructor_reformat.1 "Instructors: Mary Jo Ann Smith" "Mary" "Jo" ["Ann", "Smith"]
      (by decide) (by decide)⟩,
   C10_instructor_reformat.2.2.1 "Instructors: Mary Jo Ann Smith" "Instructors: Mary Jo Brown"
      "Mary" "Jo" ["Ann", "Smith"] ["Brown"] (by decide) (by decide) (by decide) (by decide),
   ⟨by decide, by decide,
    C10_instructor_reformat.2.1 "Instructors: Cher" "Cher" (by decide) (by decide)⟩⟩
